import Mathlib

/-!
Verification model of the solana wasm client transport.

Shallow embedding of `src/lib.rs` (the `HttpSender` JSON-RPC transport with
rate-limit retry, error decoding and transport stats) and of
`src/wasm_rpc_client.rs` (the `WasmRpcClient::send_and_confirm_transaction`
confirmation state machine).

Modelling conventions:
  * JSON values (`serde_json::Value`) are the inductive `Json` below; objects
    carry their fields as an association list standing for serde_json's map
    (keys unique in real values; lookup takes the first binding).
  * The host HTTP primitive (`laplace_wasm::http`) is an environment: attempt
    number `i` of the retry loop observes `att i`, which is either a
    request-build failure, an `http::invoke` failure, or an `HttpResponse`
    whose `body` field is the outcome of `serde_json::from_slice` on the
    response bytes.
  * Durations are in milliseconds as plain naturals; the wall-clock elapsed
    time of a whole `send` call is supplied by the environment
    (`SendEnv.elapsed`), since it is not a function of the program text.
  * The external deserializers of `solana_client_api`
    (`RpcSimulateTransactionResult` and `NodeUnhealthyErrorData`) are
    parameters (`ExternalDecoders`); the transport only dispatches on whether
    they succeed.
  * A call that panics (the `IndexMut` of `json["result"].take()` on a body
    that is neither an object nor null) ends in the distinguished
    `SendCallResult.panicked` outcome instead of a returned `Result`.
-/

namespace SolanaWasmClient

/-- Model of `serde_json::Value`. Numbers are restricted to integers, the
only numeric shapes the transport inspects (`code: i64`). -/
inductive Json where
  | null
  | bool (b : Bool)
  | num (n : Int)
  | str (s : String)
  | arr (elems : List Json)
  | obj (fields : List (String × Json))

/-- First binding of a key in an object's field list (serde_json map get). -/
def lookupField : List (String × Json) → String → Option Json
  | [], _ => none
  | (k, v) :: rest, key => if k = key then some v else lookupField rest key

/-- Model of `value[key]` indexing on `serde_json::Value`: the field's value
when present on an object, `Null` otherwise. -/
def Json.getField (j : Json) (key : String) : Json :=
  match j with
  | .obj fs => (lookupField fs key).getD .null
  | _ => .null

/-- Model of `Value::is_object`. -/
def Json.isObject : Json → Bool
  | .obj _ => true
  | _ => false

/-- Whether an object value has a binding for `key` (used to state claims
about bodies that contain no `error` field). -/
def Json.hasField (j : Json) (key : String) : Bool :=
  match j with
  | .obj fs => (lookupField fs key).isSome
  | _ => false

/-- Model of `str::parse::<u64>` on a list of characters: an optional leading
plus sign, then one or more decimal digits, value below `2^64`; anything
else (empty, minus sign, non-digit, overflow) fails. -/
def parseU64Chars (cs : List Char) : Option Nat :=
  let ds := match cs with
    | '+' :: rest => rest
    | _ => cs
  if ds ≠ [] ∧ ds.all (fun c => c.isDigit) then
    let n := ds.foldl (fun a c => a * 10 + (c.toNat - 48)) 0
    if n < 2 ^ 64 then some n else none
  else none

/-- Model of `retry_after.parse::<u64>()` on the header string. -/
def rustParseU64 (s : String) : Option Nat :=
  parseU64Chars s.data

/-- Model of `StatusCode::is_success`: a 2xx status. -/
def isSuccess (status : Nat) : Bool :=
  200 ≤ status && status < 300

/-- One observed HTTP response: status code, the `Retry-After` header when
present and convertible by `to_str`, and the JSON-parse outcome of the body
bytes (`serde_json::from_slice`). -/
structure HttpResponse where
  status : Nat
  retryAfter : Option String
  body : Except String Json

/-- Outcome the environment supplies for one iteration of the retry loop in
`HttpSender::send`: the `RequestBuilder` chain failing, `http::invoke`
failing, or a response coming back. -/
inductive AttemptResult where
  | buildErr (msg : String)
  | invokeErr (msg : String)
  | response (r : HttpResponse)

/-- Backoff duration in milliseconds before resending after a 429, from
`src/lib.rs` lines 61-70: default 500 ms, overridden by a `Retry-After`
header value that parses as a `u64` below 120, taken as whole seconds. -/
def backoffMs (retryAfter : Option String) : Nat :=
  match retryAfter with
  | none => 500
  | some s =>
    match rustParseU64 s with
    | some n => if n < 120 then 1000 * n else 500
    | none => 500

/-- The reserved code `JSON_RPC_SERVER_ERROR_SEND_TRANSACTION_PREFLIGHT_FAILURE`
of `solana_client_api::rpc_custom_error`. -/
def PREFLIGHT_FAILURE_CODE : Int := -32002

/-- The reserved code `JSON_RPC_SERVER_ERROR_NODE_UNHEALTHY` of
`solana_client_api::rpc_custom_error`. -/
def NODE_UNHEALTHY_CODE : Int := -32005

/-- Model of `RpcResponseErrorData`: the decoded `data` attached to an RPC
error response. The simulation result payload is kept as the raw value the
external decoder produced. -/
inductive RpcResponseErrorData where
  | empty
  | sendTransactionPreflightFailure (result : Json)
  | nodeUnhealthy (numSlotsBehind : Int)

/-- External deserializers of `solana_client_api`, abstract here:
`serde_json::from_value::<RpcSimulateTransactionResult>` and
`serde_json::from_value::<NodeUnhealthyErrorData>` (the latter reduced to the
`num_slots_behind` value it yields). `none` models a decode failure. -/
structure ExternalDecoders where
  decodeSimResult : Json → Option Json
  decodeNodeUnhealthy : Json → Option Int

/-- Error kinds a `send` call can produce, after the `ClientError` /
`RpcError` variants the Rust code constructs:
  * `custom`: `ClientErrorKind::Custom` from a build or invoke failure;
  * `serdeJson`: the `?` on `serde_json::from_slice` for the body;
  * `rpcForUser`: `RpcError::ForUser(format status)` for a bad HTTP status
    (the status it carries is kept structurally);
  * `rpcRequestError`: `RpcError::RpcRequestError` for an error envelope that
    failed to decode, carrying the raw error JSON and the decode detail that
    the Rust code formats into the message;
  * `rpcResponseError`: `RpcError::RpcResponseError` with code, message and
    decoded data. -/
inductive ClientErrorKind where
  | custom (msg : String)
  | serdeJson (msg : String)
  | rpcForUser (status : Nat)
  | rpcRequestError (rawError : Json) (detail : String)
  | rpcResponseError (code : Int) (message : String) (data : RpcResponseErrorData)

/-- Outcome of one `send` call: `Ok(v)`, `Err(e)`, or a panic. The panic arm
models the `serde_json` `IndexMut` panic that `json["result"].take()` raises
on a body that is neither an object nor null (line 130): the call diverges
instead of returning a `Result`. -/
inductive SendCallResult where
  | ok (v : Json)
  | err (e : ClientErrorKind)
  | panicked

/-- Model of `json["result"].take()` (`src/lib.rs` line 130). The mutable
index goes through serde_json's `index_or_insert`: on an object it returns
the `result` entry (inserting `Null` when absent, so `take` moves out the
value or `Null`); a `Null` body is first replaced by an empty object, so the
call yields `Null`; any other body (number, string, boolean, array) panics,
modelled by `none`. -/
def takeResultField (j : Json) : Option Json :=
  match j with
  | .obj fs => some ((lookupField fs "result").getD .null)
  | .null => some .null
  | _ => none

/-- Model of `serde_json::from_value::<RpcErrorObject>`: requires an object
with an integer `code` fitting `i64` and a string `message`; unknown extra
fields are allowed. The error string stands for the serde error detail. -/
def decodeRpcErrorObject (j : Json) : Except String (Int × String) :=
  match j with
  | .obj fs =>
    match lookupField fs "code" with
    | some (.num c) =>
      if -(2 ^ 63) ≤ c ∧ c < 2 ^ 63 then
        match lookupField fs "message" with
        | some (.str m) => .ok (c, m)
        | some _ => .error "invalid type for field message"
        | none => .error "missing field message"
      else .error "number out of range for i64 field code"
    | some _ => .error "invalid type for field code"
    | none => .error "missing field code"
  | _ => .error "invalid type: expected struct RpcErrorObject"

/-- The JSON-RPC request body built once per `send` call by
`request.build_request_json(request_id, params).to_string()`; the constant
`jsonrpc` marker is omitted, the id, method and params determine the bytes. -/
structure RequestJson where
  id : Nat
  method : String
  params : Json

/-- The retry loop of `HttpSender::send` (`src/lib.rs` lines 48-131).
Arguments: external decoders, the request body built before the loop, the
attempt environment, the remaining `too_many_requests_retries` budget, and
the current attempt index. Returns the call result, the total rate-limited
wait accumulated by `stats_updater.add_rate_limited_time`, and the list of
bodies handed to `http::invoke`, in order. -/
def sendLoop (D : ExternalDecoders) (body : RequestJson) (att : Nat → AttemptResult) :
    Nat → Nat → SendCallResult × Nat × List RequestJson
  | retries, i =>
    match att i with
    | .buildErr m => (.err (.custom m), 0, [])
    | .invokeErr m => (.err (.custom m), 0, [body])
    | .response r =>
      if isSuccess r.status then
        match r.body with
        | .error e => (.err (.serdeJson e), 0, [body])
        | .ok json =>
          let errObj := json.getField "error"
          if errObj.isObject then
            match decodeRpcErrorObject errObj with
            | .ok (code, msg) =>
              let d := errObj.getField "data"
              let data :=
                if code = PREFLIGHT_FAILURE_CODE then
                  match D.decodeSimResult d with
                  | some s => RpcResponseErrorData.sendTransactionPreflightFailure s
                  | none => RpcResponseErrorData.empty
                else if code = NODE_UNHEALTHY_CODE then
                  match D.decodeNodeUnhealthy d with
                  | some n => RpcResponseErrorData.nodeUnhealthy n
                  | none => RpcResponseErrorData.empty
                else RpcResponseErrorData.empty
              (.err (.rpcResponseError code msg data), 0, [body])
            | .error e => (.err (.rpcRequestError errObj e), 0, [body])
          else
            match takeResultField json with
            | some v => (.ok v, 0, [body])
            | none => (.panicked, 0, [body])
      else if r.status = 429 then
        match retries with
        | rs + 1 =>
          let out := sendLoop D body att rs (i + 1)
          (out.1, backoffMs r.retryAfter + out.2.1, body :: out.2.2)
        | 0 => (.err (.rpcForUser r.status), 0, [body])
      else (.err (.rpcForUser r.status), 0, [body])

/-- Model of `RpcTransportStats`: request count, cumulative elapsed wall time
and cumulative rate-limited wait, in milliseconds. -/
structure RpcTransportStats where
  requestCount : Nat
  elapsedTime : Nat
  rateLimitedTime : Nat

/-- Mutable state of one `HttpSender` instance: the `AtomicU64` request-id
counter and the stats behind the `RwLock`. -/
structure SenderState where
  requestId : Nat
  stats : RpcTransportStats

/-- Environment of one `send` call: the per-attempt HTTP outcomes and the
wall-clock duration of the whole call (what `Instant::now() - start` measures
in `StatsUpdater::drop`). -/
structure SendEnv where
  att : Nat → AttemptResult
  elapsed : Nat

/-- Result of one `send` call: the returned value, the bodies transmitted to
`http::invoke` across the initial attempt and all retries, and the sender
state after the call (id counter bumped, stats committed by the
`StatsUpdater` drop). -/
structure SendOut where
  result : SendCallResult
  sentBodies : List RequestJson
  state : SenderState

/-- Modulus of the `AtomicU64` request-id counter: `fetch_add` wraps. -/
def U64MOD : Nat := 2 ^ 64

/-- Model of `HttpSender::new`: counter at 0, default stats. -/
def HttpSender.new : SenderState :=
  { requestId := 0, stats := { requestCount := 0, elapsedTime := 0, rateLimitedTime := 0 } }

/-- Model of `HttpSender::send` (`src/lib.rs` lines 41-132): draw a fresh id
with `fetch_add`, build the request body once, run the retry loop with a
budget of 5, and commit the stats exactly once on exit (the `Drop` of
`StatsUpdater` fires on every path): request count up by 1, elapsed time up
by the call's wall-clock duration, rate-limited time up by the waits the
loop accumulated. -/
def HttpSender.send (D : ExternalDecoders) (st : SenderState) (method : String)
    (params : Json) (env : SendEnv) : SendOut :=
  let rid := st.requestId
  let body : RequestJson := { id := rid, method := method, params := params }
  let out := sendLoop D body env.att 5 0
  { result := out.1
    sentBodies := out.2.2
    state :=
      { requestId := (rid + 1) % U64MOD
        stats :=
          { requestCount := st.stats.requestCount + 1
            elapsedTime := st.stats.elapsedTime + env.elapsed
            rateLimitedTime := st.stats.rateLimitedTime + out.2.1 } } }

/-- Specification-side list of the backoff waits a run of the retry loop
incurs: one entry per attempt answered 429 while budget remains. -/
def backoffWaits (att : Nat → AttemptResult) : Nat → Nat → List Nat
  | retries, i =>
    match att i with
    | .response r =>
      if isSuccess r.status then []
      else if r.status = 429 then
        match retries with
        | rs + 1 => backoffMs r.retryAfter :: backoffWaits att rs (i + 1)
        | 0 => []
      else []
    | _ => []

/-- Ids drawn by a sequence of `send` calls on one instance, threading the
sender state through the calls; each entry is the value `fetch_add` returned
for that call. -/
def runSends (D : ExternalDecoders) : SenderState → List (String × Json × SendEnv) → List Nat
  | _, [] => []
  | st, (m, p, e) :: rest =>
    st.requestId :: runSends D (HttpSender.send D st m p e).state rest

section Confirm

variable {Sig Hash TxErr E : Type}

/-- The part of a `Transaction` the submitter inspects: whether
`uses_durable_nonce(tx).is_some()` and the embedded
`message.recent_blockhash`. -/
structure Transaction (Hash : Type) where
  usesDurableNonce : Bool
  recentBlockhash : Hash

/-- Environment of one `send_and_confirm_transaction` call: the external
client's answers. `status k` is the `get_signature_status` answer at the
k-th poll, `blockhashValid h k` the `is_blockhash_valid` answer for hash `h`
at the k-th poll; `E` is the client-error type these calls can raise, and a
present status is `Except TxErr Unit` (a transaction outcome). -/
structure ConfirmEnv (Sig Hash TxErr E : Type) where
  sendTransaction : Except E Sig
  latestBlockhash : Except E Hash
  status : Nat → Except E (Option (Except TxErr Unit))
  blockhashValid : Hash → Nat → Except E Bool

/-- Errors of `send_and_confirm_transaction`: a propagated client error
(the `?` operator), a transaction error from a failed status
(`Err(e.into())`), or the final `RpcError::ForUser` message. -/
inductive ConfirmErr (TxErr E : Type) where
  | client (e : E)
  | transaction (te : TxErr)
  | forUser (msg : String)

/-- Outcome of the inner poll loop, before the outer loop interprets it. -/
inductive PollOutcome (TxErr E : Type) where
  | confirmed
  | failed (te : TxErr)
  | clientErr (e : E)
  | stale
  | exhausted

/-- Model of `GET_STATUS_RETRIES`: `usize::MAX` on the 32-bit wasm target. -/
def GET_STATUS_RETRIES : Nat := 2 ^ 32 - 1

/-- The exact user-facing message of the terminal confirmation failure in
`src/wasm_rpc_client.rs`. -/
def confirmFailMsg : String :=
  "unable to confirm transaction. This can happen in situations such as transaction expiration and insufficient fee-payer funds"

/-- Reference blockhash selection (`src/wasm_rpc_client.rs` lines 24-29):
the latest blockhash at processed commitment for a durable-nonce
transaction, the transaction's own recent blockhash otherwise. -/
def refHash (env : ConfirmEnv Sig Hash TxErr E) (tx : Transaction Hash) : Except E Hash :=
  if tx.usesDurableNonce then env.latestBlockhash else .ok tx.recentBlockhash

/-- The inner status-poll loop (`src/wasm_rpc_client.rs` lines 31-56),
with the remaining iteration budget as fuel and `k` the poll index. Returns
the outcome and the number of status queries performed. A present successful
status confirms; a present failed status fails; an absent status checks the
reference blockhash and either gives up (`break 'sending`) when it is no
longer valid or sleeps and polls again. -/
def pollLoop (env : ConfirmEnv Sig Hash TxErr E) (bh : Hash) (k : Nat) :
    Nat → PollOutcome TxErr E × Nat
  | 0 => (.exhausted, 0)
  | fuel + 1 =>
    match env.status k with
    | .error e => (.clientErr e, 1)
    | .ok (some (.ok _)) => (.confirmed, 1)
    | .ok (some (.error te)) => (.failed te, 1)
    | .ok none =>
      match env.blockhashValid bh k with
      | .error e => (.clientErr e, 1)
      | .ok false => (.stale, 1)
      | .ok true =>
        let out := pollLoop env bh (k + 1) fuel
        (out.1, out.2 + 1)

/-- Model of `WasmRpcClient::send_and_confirm_transaction`
(`src/wasm_rpc_client.rs` lines 17-66). `SEND_RETRIES` is 1, so the outer
loop is a single pass: send, select the reference blockhash, poll; a stale
blockhash (`break 'sending`) or an exhausted poll budget both fall through
to the final `RpcError::ForUser` error. -/
def WasmRpcClient.send_and_confirm_transaction (env : ConfirmEnv Sig Hash TxErr E)
    (tx : Transaction Hash) : Except (ConfirmErr TxErr E) Sig :=
  match env.sendTransaction with
  | .error e => .error (.client e)
  | .ok signature =>
    match refHash env tx with
    | .error e => .error (.client e)
    | .ok bh =>
      match (pollLoop env bh 0 GET_STATUS_RETRIES).1 with
      | .confirmed => .ok signature
      | .failed te => .error (.transaction te)
      | .clientErr e => .error (.client e)
      | .stale => .error (.forUser confirmFailMsg)
      | .exhausted => .error (.forUser confirmFailMsg)

end Confirm

/-- Concrete `NodeUnhealthyErrorData` decoder used to instantiate the
abstract external decoders in concrete runs. Modelled from the spec: decode
`data` as an object with a numeric `num_slots_behind` field. -/
def decodeNodeUnhealthyJson (j : Json) : Option Int :=
  match j with
  | .obj fs =>
    match lookupField fs "num_slots_behind" with
    | some (.num n) => some n
    | _ => none
  | _ => none

/-- Concrete external decoders for concrete runs: the simulation-result
decode keeps the raw value, the node-unhealthy decode reads
`num_slots_behind`. -/
def fixDecoders : ExternalDecoders :=
  ⟨fun j => some j, decodeNodeUnhealthyJson⟩

/-- A 429 response with no `Retry-After` header. -/
def cw2Resp : HttpResponse := ⟨429, none, .error "not parsed"⟩

/-- An environment answering 429 to every attempt. -/
def cw2Env : SendEnv := ⟨fun _ => .response cw2Resp, 0⟩

/-- A 404 response. -/
def c404Resp : HttpResponse := ⟨404, none, .error "not parsed"⟩

/-- An environment answering 404 to every attempt. -/
def c404Env : SendEnv := ⟨fun _ => .response c404Resp, 0⟩

/-- A request body fixture. -/
def wBody : RequestJson := ⟨0, "getHealth", Json.null⟩

/-- An attempt environment answering 429 with a given `Retry-After` header
to every attempt. -/
def c3att (ra : Option String) : Nat → AttemptResult :=
  fun _ => .response ⟨429, ra, .error "not parsed"⟩

/-- The malformed body of the spec's testable property: the `error` field is
a string, not an object. -/
def c4Json : Json := .obj [("error", .str "not-an-object")]

/-- Environment answering HTTP 200 with `c4Json` to every attempt. -/
def c4Env : SendEnv := ⟨fun _ => .response ⟨200, none, .ok c4Json⟩, 0⟩

/-- A body whose `error` field is an object that does not decode as
`code`/`message` (the `code` field is a string). -/
def c4amJson : Json := .obj [("error", .obj [("code", .str "x")])]

/-- Environment answering HTTP 200 with `c4amJson` to every attempt. -/
def c4amEnv : SendEnv := ⟨fun _ => .response ⟨200, none, .ok c4amJson⟩, 0⟩

/-- A well-formed node-unhealthy error envelope with
`num_slots_behind = 3`. -/
def c5Json : Json :=
  .obj [("error", .obj [("code", .num (-32005)), ("message", .str "unhealthy"),
    ("data", .obj [("num_slots_behind", .num 3)])])]

/-- Environment answering HTTP 200 with `c5Json` to every attempt. -/
def c5Env : SendEnv := ⟨fun _ => .response ⟨200, none, .ok c5Json⟩, 0⟩

/-- A success envelope carrying `result = 42`. -/
def c6Json : Json := .obj [("result", .num 42)]

/-- Environment answering HTTP 200 with `c6Json` to every attempt. -/
def c6Env : SendEnv := ⟨fun _ => .response ⟨200, none, .ok c6Json⟩, 0⟩

/-- Environment answering HTTP 200 with the bare JSON number 7 as body to
every attempt: a body with no `error` field that is neither an object nor
null. -/
def c6BadEnv : SendEnv := ⟨fun _ => .response ⟨200, none, .ok (.num 7)⟩, 0⟩

/-- A send environment whose request build always fails (contents are
irrelevant to the id counter). -/
def cexEnv : SendEnv := ⟨fun _ => .buildErr "build failure", 0⟩

/-- One call descriptor for the id-counter runs. -/
def cexCall : String × Json × SendEnv := ("getHealth", Json.null, cexEnv)

/-- Exactly `2^64 + 1` successive calls: enough to wrap the u64 counter. -/
def cexCalls : List (String × Json × SendEnv) := List.replicate (U64MOD + 1) cexCall

/-- Three successive calls. -/
def smallCalls : List (String × Json × SendEnv) := [cexCall, cexCall, cexCall]

/-- Confirmation environment for a non-durable transaction whose status
appears as failed (error 7) on the second poll. -/
def c7Env : ConfirmEnv Nat Nat Nat Nat :=
  ⟨.ok 11, .ok 99, fun k => if k = 0 then .ok none else .ok (some (.error 7)),
    fun _ _ => .ok true⟩

/-- A transaction with no durable nonce and recent blockhash 99. -/
def c7Tx : Transaction Nat := ⟨false, 99⟩

/-- Confirmation environment for a durable-nonce transaction whose reference
blockhash stops being valid on the second poll while the status stays
absent. -/
def c8Env : ConfirmEnv Nat Nat Nat Nat :=
  ⟨.ok 11, .ok 99, fun _ => .ok none, fun _ k => if k = 0 then .ok true else .ok false⟩

/-- A durable-nonce transaction. -/
def c8Tx : Transaction Nat := ⟨true, 0⟩

theorem sendLoop_wait_eq (D : ExternalDecoders) (body : RequestJson) (att : Nat → AttemptResult) :
    ∀ retries i, (sendLoop D body att retries i).2.1 = (backoffWaits att retries i).sum := by
  intro retries
  induction retries with
  | zero =>
    intro i
    rw [sendLoop.eq_def, backoffWaits.eq_def]
    cases hA : att i with
    | buildErr m => simp [hA]
    | invokeErr m => simp [hA]
    | response r =>
      simp only [hA]
      cases hs : isSuccess r.status
      · by_cases h4 : r.status = 429
        · simp [hs, h4]
        · simp [hs, h4]
      · cases hb : r.body with
        | error e => simp [hs, hb]
        | ok json =>
          simp only [hs, if_true, hb]
          by_cases ho : (json.getField "error").isObject
          · cases hd : decodeRpcErrorObject (json.getField "error") with
            | ok co => obtain ⟨c, msg⟩ := co; simp [ho, hd]
            | error e => simp [ho, hd]
          · cases htr : takeResultField json with
            | some v => simp [ho, htr]
            | none => simp [ho, htr]
  | succ n ih =>
    intro i
    rw [sendLoop.eq_def, backoffWaits.eq_def]
    cases hA : att i with
    | buildErr m => simp [hA]
    | invokeErr m => simp [hA]
    | response r =>
      simp only [hA]
      cases hs : isSuccess r.status
      · by_cases h4 : r.status = 429
        · simp only [hs, Bool.false_eq_true, if_false, h4, if_true, List.sum_cons]
          rw [ih (i + 1)]
        · simp [hs, h4]
      · cases hb : r.body with
        | error e => simp [hs, hb]
        | ok json =>
          simp only [hs, if_true, hb]
          by_cases ho : (json.getField "error").isObject
          · cases hd : decodeRpcErrorObject (json.getField "error") with
            | ok co => obtain ⟨c, msg⟩ := co; simp [ho, hd]
            | error e => simp [ho, hd]
          · cases htr : takeResultField json with
            | some v => simp [ho, htr]
            | none => simp [ho, htr]

theorem sendLoop_trace_all (D : ExternalDecoders) (body : RequestJson) (att : Nat → AttemptResult) :
    ∀ retries i, ∀ b ∈ (sendLoop D body att retries i).2.2, b = body := by
  intro retries
  induction retries with
  | zero =>
    intro i
    rw [sendLoop.eq_def]
    cases hA : att i with
    | buildErr m => simp [hA]
    | invokeErr m => simp [hA]
    | response r =>
      simp only [hA]
      cases hs : isSuccess r.status
      · by_cases h4 : r.status = 429
        · simp [hs, h4]
        · simp [hs, h4]
      · cases hb : r.body with
        | error e => simp [hs, hb]
        | ok json =>
          simp only [hs, if_true, hb]
          by_cases ho : (json.getField "error").isObject
          · cases hd : decodeRpcErrorObject (json.getField "error") with
            | ok co => obtain ⟨c, msg⟩ := co; simp [ho, hd]
            | error e => simp [ho, hd]
          · cases htr : takeResultField json with
            | some v => simp [ho, htr]
            | none => simp [ho, htr]
  | succ n ih =>
    intro i
    rw [sendLoop.eq_def]
    cases hA : att i with
    | buildErr m => simp [hA]
    | invokeErr m => simp [hA]
    | response r =>
      simp only [hA]
      cases hs : isSuccess r.status
      · by_cases h4 : r.status = 429
        · simp only [hs, Bool.false_eq_true, if_false, h4, if_true]
          intro b hb
          rcases List.mem_cons.mp hb with h | h
          · exact h
          · exact ih (i + 1) b h
        · simp [hs, h4]
      · cases hb : r.body with
        | error e => simp [hs, hb]
        | ok json =>
          simp only [hs, if_true, hb]
          by_cases ho : (json.getField "error").isObject
          · cases hd : decodeRpcErrorObject (json.getField "error") with
            | ok co => obtain ⟨c, msg⟩ := co; simp [ho, hd]
            | error e => simp [ho, hd]
          · cases htr : takeResultField json with
            | some v => simp [ho, htr]
            | none => simp [ho, htr]

/-- C1: every call to `HttpSender::send`, whatever its exit path and however
many rate-limit retries it performed, bumps the transport stats exactly once:
request count by 1, elapsed time by the call's wall-clock duration, and
rate-limited time by the sum of the backoff waits the call incurred. -/
theorem send_updates_stats_exactly_once (D : ExternalDecoders) (st : SenderState)
    (method : String) (params : Json) (env : SendEnv) :
    (HttpSender.send D st method params env).state.stats.requestCount
        = st.stats.requestCount + 1 ∧
    (HttpSender.send D st method params env).state.stats.elapsedTime
        = st.stats.elapsedTime + env.elapsed ∧
    (HttpSender.send D st method params env).state.stats.rateLimitedTime
        = st.stats.rateLimitedTime + (backoffWaits env.att 5 0).sum := by
  refine ⟨rfl, rfl, ?_⟩
  show st.stats.rateLimitedTime + (sendLoop D _ env.att 5 0).2.1 = _
  rw [sendLoop_wait_eq]

/-- C2: six consecutive 429 responses exhaust the budget of 5 retries: the
call fails with a transport error carrying status 429 after 6 transmitted
attempts, with the rate-limited stat grown by the 5 backoff waits; and a
non-success status other than 429 fails immediately with a transport error
carrying that status, with no wait and a single attempt. -/
theorem send_429_retry_budget (D : ExternalDecoders) (st : SenderState)
    (method : String) (params : Json) :
    (∀ env : SendEnv, ∀ rs : Nat → HttpResponse,
        (∀ i, i ≤ 5 → env.att i = .response (rs i)) →
        (∀ i, i ≤ 5 → (rs i).status = 429) →
        (HttpSender.send D st method params env).result = .err (.rpcForUser 429) ∧
        (HttpSender.send D st method params env).sentBodies.length = 6 ∧
        (HttpSender.send D st method params env).state.stats.rateLimitedTime =
          st.stats.rateLimitedTime +
            ((List.range 5).map (fun i => backoffMs (rs i).retryAfter)).sum) ∧
    (∀ env : SendEnv, ∀ r : HttpResponse,
        env.att 0 = .response r → isSuccess r.status = false → r.status ≠ 429 →
        (HttpSender.send D st method params env).result = .err (.rpcForUser r.status) ∧
        (HttpSender.send D st method params env).sentBodies.length = 1 ∧
        (HttpSender.send D st method params env).state.stats.rateLimitedTime =
          st.stats.rateLimitedTime) := by
  constructor
  · intro env rs hA h4
    have h429f : isSuccess 429 = false := rfl
    have L5 : sendLoop D ⟨st.requestId, method, params⟩ env.att 0 5
        = (.err (.rpcForUser 429), 0, [⟨st.requestId, method, params⟩]) := by
      rw [sendLoop.eq_def]
      simp [hA 5 (by omega), h429f, h4 5 (by omega)]
    have L4 : sendLoop D ⟨st.requestId, method, params⟩ env.att 1 4
        = (.err (.rpcForUser 429), backoffMs (rs 4).retryAfter,
           List.replicate 2 ⟨st.requestId, method, params⟩) := by
      rw [sendLoop.eq_def]
      simp [hA 4 (by omega), h429f, h4 4 (by omega), L5, List.replicate]
    have L3 : sendLoop D ⟨st.requestId, method, params⟩ env.att 2 3
        = (.err (.rpcForUser 429),
           backoffMs (rs 3).retryAfter + backoffMs (rs 4).retryAfter,
           List.replicate 3 ⟨st.requestId, method, params⟩) := by
      rw [sendLoop.eq_def]
      simp [hA 3 (by omega), h429f, h4 3 (by omega), L4, List.replicate]
    have L2 : sendLoop D ⟨st.requestId, method, params⟩ env.att 3 2
        = (.err (.rpcForUser 429),
           backoffMs (rs 2).retryAfter +
             (backoffMs (rs 3).retryAfter + backoffMs (rs 4).retryAfter),
           List.replicate 4 ⟨st.requestId, method, params⟩) := by
      rw [sendLoop.eq_def]
      simp [hA 2 (by omega), h429f, h4 2 (by omega), L3, List.replicate]
    have L1 : sendLoop D ⟨st.requestId, method, params⟩ env.att 4 1
        = (.err (.rpcForUser 429),
           backoffMs (rs 1).retryAfter +
             (backoffMs (rs 2).retryAfter +
               (backoffMs (rs 3).retryAfter + backoffMs (rs 4).retryAfter)),
           List.replicate 5 ⟨st.requestId, method, params⟩) := by
      rw [sendLoop.eq_def]
      simp [hA 1 (by omega), h429f, h4 1 (by omega), L2, List.replicate]
    have L0 : sendLoop D ⟨st.requestId, method, params⟩ env.att 5 0
        = (.err (.rpcForUser 429),
           backoffMs (rs 0).retryAfter +
             (backoffMs (rs 1).retryAfter +
               (backoffMs (rs 2).retryAfter +
                 (backoffMs (rs 3).retryAfter + backoffMs (rs 4).retryAfter))),
           List.replicate 6 ⟨st.requestId, method, params⟩) := by
      rw [sendLoop.eq_def]
      simp [hA 0 (by omega), h429f, h4 0 (by omega), L1, List.replicate]
    refine ⟨?_, ?_, ?_⟩
    · simp [HttpSender.send, L0]
    · simp [HttpSender.send, L0]
    · simp [HttpSender.send, L0, List.range_succ]
  · intro env r h0 hs h4
    have L : sendLoop D ⟨st.requestId, method, params⟩ env.att 5 0
        = (.err (.rpcForUser r.status), 0, [⟨st.requestId, method, params⟩]) := by
      rw [sendLoop.eq_def]
      simp [h0, hs, h4]
    refine ⟨?_, ?_, ?_⟩ <;> simp [HttpSender.send, L]

/-- C3: on a 429 answer with retry budget remaining, the loop waits
`backoffMs` of the `Retry-After` header and resends; the wait is the header
value in whole seconds exactly when it parses as a `u64` below 120, and the
500 ms default in every other case (no header, non-numeric or negative
value, or a parsed value of 120 or more). -/
theorem send_429_backoff_duration (D : ExternalDecoders) (body : RequestJson)
    (att : Nat → AttemptResult) (r : HttpResponse) (n i : Nat)
    (hA : att i = .response r) (h429 : r.status = 429) :
    (sendLoop D body att (n + 1) i =
      ((sendLoop D body att n (i + 1)).1,
        backoffMs r.retryAfter + (sendLoop D body att n (i + 1)).2.1,
        body :: (sendLoop D body att n (i + 1)).2.2)) ∧
    (∀ s v, r.retryAfter = some s → rustParseU64 s = some v → v < 120 →
        backoffMs r.retryAfter = 1000 * v) ∧
    (∀ s v, r.retryAfter = some s → rustParseU64 s = some v → 120 ≤ v →
        backoffMs r.retryAfter = 500) ∧
    (∀ s, r.retryAfter = some s → rustParseU64 s = none → backoffMs r.retryAfter = 500) ∧
    (r.retryAfter = none → backoffMs r.retryAfter = 500) := by
  have h429f : isSuccess 429 = false := rfl
  refine ⟨?_, ?_, ?_, ?_, ?_⟩
  · rw [sendLoop.eq_def]
    simp [hA, h429f, h429]
  · intro s v hra hp hlt
    rw [hra]
    simp only [backoffMs, hp]
    simp [hlt]
  · intro s v hra hp hge
    rw [hra]
    simp only [backoffMs, hp]
    simp [Nat.not_lt.mpr hge]
  · intro s hra hp
    rw [hra]
    simp only [backoffMs, hp]
  · intro hra
    rw [hra]
    rfl

/-- C4 (amended): an HTTP-success body whose `error` field is a JSON object
that does not decode as code/message yields a request error carrying the
raw error JSON and the decode detail, with a single attempt (not
retried). -/
theorem malformed_error_object_request_error (D : ExternalDecoders) (st : SenderState)
    (method : String) (params : Json) (env : SendEnv) (r : HttpResponse) (json : Json)
    (efs : List (String × Json)) (e : String)
    (h0 : env.att 0 = .response r) (hs : isSuccess r.status = true)
    (hb : r.body = .ok json) (he : json.getField "error" = .obj efs)
    (hd : decodeRpcErrorObject (.obj efs) = .error e) :
    (HttpSender.send D st method params env).result
        = .err (.rpcRequestError (.obj efs) e) ∧
    (HttpSender.send D st method params env).sentBodies.length = 1 := by
  have L : sendLoop D ⟨st.requestId, method, params⟩ env.att 5 0
      = (.err (.rpcRequestError (.obj efs) e), 0, [⟨st.requestId, method, params⟩]) := by
    rw [sendLoop.eq_def]
    simp [h0, hs, hb, he, hd, Json.isObject]
  exact ⟨by simp [HttpSender.send, L], by simp [HttpSender.send, L]⟩

/-- C4 counterexample: with the body whose `error` field is the string
"not-an-object", `send` returns Ok(null) — the `is_object` gate skips the
error-envelope decoding entirely, so no request error is produced. -/
theorem error_string_envelope_yields_ok :
    (HttpSender.send fixDecoders HttpSender.new "getHealth" Json.null c4Env).result
      = .ok Json.null := rfl

/-- C5: a well-formed error envelope is terminal and its `data` is decoded by
dispatch on the code: the preflight-failure code through the
simulation-result decoder with empty fallback, the node-unhealthy code
through the slots-behind decoder with empty fallback, and every other code
to empty data. -/
theorem rpc_error_data_dispatch (D : ExternalDecoders) (st : SenderState)
    (method : String) (params : Json) (env : SendEnv) (r : HttpResponse) (json : Json)
    (efs : List (String × Json)) (code : Int) (msg : String)
    (h0 : env.att 0 = .response r) (hs : isSuccess r.status = true)
    (hb : r.body = .ok json) (he : json.getField "error" = .obj efs)
    (hd : decodeRpcErrorObject (.obj efs) = .ok (code, msg)) :
    ((code = PREFLIGHT_FAILURE_CODE →
        (HttpSender.send D st method params env).result =
          .err (.rpcResponseError code msg
            (match D.decodeSimResult ((Json.obj efs).getField "data") with
             | some s => .sendTransactionPreflightFailure s
             | none => .empty))) ∧
     (code = NODE_UNHEALTHY_CODE →
        (HttpSender.send D st method params env).result =
          .err (.rpcResponseError code msg
            (match D.decodeNodeUnhealthy ((Json.obj efs).getField "data") with
             | some v => .nodeUnhealthy v
             | none => .empty))) ∧
     (code ≠ PREFLIGHT_FAILURE_CODE → code ≠ NODE_UNHEALTHY_CODE →
        (HttpSender.send D st method params env).result =
          .err (.rpcResponseError code msg .empty))) ∧
    (HttpSender.send D st method params env).sentBodies.length = 1 := by
  refine ⟨⟨?_, ?_, ?_⟩, ?_⟩
  · intro hc
    subst hc
    simp only [HttpSender.send]
    rw [sendLoop.eq_def]
    simp [h0, hs, hb, he, hd, Json.isObject]
  · intro hc
    subst hc
    simp only [HttpSender.send]
    rw [sendLoop.eq_def]
    simp [h0, hs, hb, he, hd, Json.isObject, NODE_UNHEALTHY_CODE, PREFLIGHT_FAILURE_CODE]
  · intro hp hn
    simp only [HttpSender.send]
    rw [sendLoop.eq_def]
    simp [h0, hs, hb, he, hd, Json.isObject, hp, hn]
  · simp only [HttpSender.send]
    rw [sendLoop.eq_def]
    simp [h0, hs, hb, he, hd, Json.isObject]

/-- C6 (amended): an HTTP-success body that is a JSON object or null and
contains no `error` field makes `send` return Ok of the body's `result`
field value (Null when the field is absent); in particular the body with
`result = 42` yields Ok(42). The object-or-null restriction is forced by the
`IndexMut` panic of `json["result"].take()` on any other body shape. -/
theorem success_result_extraction (D : ExternalDecoders) (st : SenderState)
    (method : String) (params : Json) (env : SendEnv) (r : HttpResponse) (json : Json)
    (h0 : env.att 0 = .response r) (hs : isSuccess r.status = true)
    (hb : r.body = .ok json) (hne : json.hasField "error" = false)
    (hshape : json.isObject = true ∨ json = .null) :
    (HttpSender.send D st method params env).result = .ok (json.getField "result") := by
  have ho : (json.getField "error").isObject = false := by
    cases json with
    | obj fs =>
      simp only [Json.hasField] at hne
      simp only [Json.getField]
      cases hl : lookupField fs "error" with
      | none => rfl
      | some v => rw [hl] at hne; simp at hne
    | null => rfl
    | bool b => rfl
    | num n => rfl
    | str s => rfl
    | arr xs => rfl
  have htr : takeResultField json = some (json.getField "result") := by
    rcases hshape with h | h
    · cases json with
      | obj fs => rfl
      | null => rfl
      | bool b => simp [Json.isObject] at h
      | num n => simp [Json.isObject] at h
      | str s => simp [Json.isObject] at h
      | arr xs => simp [Json.isObject] at h
    · subst h
      rfl
  simp only [HttpSender.send]
  rw [sendLoop.eq_def]
  simp [h0, hs, hb, ho, htr]

/-- C10: within one `send` call the request id is drawn exactly once and the
body built once before the retry loop: every transmitted body equals the
body built from the one drawn id, and the counter advances by exactly one
wrapping step. -/
theorem retries_resend_identical_body (D : ExternalDecoders) (st : SenderState)
    (method : String) (params : Json) (env : SendEnv) :
    (HttpSender.send D st method params env).sentBodies =
      List.replicate (HttpSender.send D st method params env).sentBodies.length
        ⟨st.requestId, method, params⟩ ∧
    (HttpSender.send D st method params env).state.requestId = (st.requestId + 1) % U64MOD := by
  constructor
  · exact List.eq_replicate_length.mpr
      (fun b hb => sendLoop_trace_all D ⟨st.requestId, method, params⟩ env.att 5 0 b hb)
  · rfl

theorem pollLoop_skip {Sig Hash TxErr E : Type} (env : ConfirmEnv Sig Hash TxErr E) (bh : Hash) :
    ∀ m k fuel, m ≤ fuel →
      (∀ j, j < m → env.status (k + j) = .ok none ∧ env.blockhashValid bh (k + j) = .ok true) →
      pollLoop env bh k fuel =
        ((pollLoop env bh (k + m) (fuel - m)).1, (pollLoop env bh (k + m) (fuel - m)).2 + m) := by
  intro m
  induction m with
  | zero => intro k fuel _ _; simp
  | succ n ih =>
    intro k fuel hm hpre
    obtain ⟨f, rfl⟩ : ∃ f, fuel = f + 1 := ⟨fuel - 1, by omega⟩
    have h0 := hpre 0 (by omega)
    rw [Nat.add_zero] at h0
    rw [pollLoop.eq_def]
    simp only [h0.1, h0.2]
    rw [ih (k + 1) f (by omega) (fun j hj => by
      have := hpre (j + 1) (by omega)
      rwa [show k + (j + 1) = k + 1 + j by omega] at this)]
    rw [show k + 1 + n = k + (n + 1) by omega, show f - n = f + 1 - (n + 1) by omega]
    simp [Nat.add_assoc]

/-- C7: the first poll with a present signature status is terminal: a
successful status returns the signature from the send, a failed status
returns exactly that transaction error, in both cases after exactly m+1
status queries (no further polling). -/
theorem first_present_status_terminal {Sig Hash TxErr E : Type}
    (env : ConfirmEnv Sig Hash TxErr E) (tx : Transaction Hash) (sig : Sig) (bh : Hash)
    (m : Nat)
    (hsend : env.sendTransaction = .ok sig)
    (href : refHash env tx = .ok bh)
    (hm : m < GET_STATUS_RETRIES)
    (hpre : ∀ j, j < m → env.status j = .ok none ∧ env.blockhashValid bh j = .ok true) :
    (env.status m = .ok (some (.ok ())) →
        WasmRpcClient.send_and_confirm_transaction env tx = .ok sig ∧
        (pollLoop env bh 0 GET_STATUS_RETRIES).2 = m + 1) ∧
    (∀ te, env.status m = .ok (some (.error te)) →
        WasmRpcClient.send_and_confirm_transaction env tx = .error (.transaction te) ∧
        (pollLoop env bh 0 GET_STATUS_RETRIES).2 = m + 1) := by
  have hskip := pollLoop_skip env bh m 0 GET_STATUS_RETRIES (by omega)
    (fun j hj => by simpa using hpre j hj)
  rw [Nat.zero_add] at hskip
  obtain ⟨f, hf⟩ : ∃ f, GET_STATUS_RETRIES - m = f + 1 :=
    ⟨GET_STATUS_RETRIES - m - 1, by omega⟩
  constructor
  · intro hstat
    have hp : pollLoop env bh m (GET_STATUS_RETRIES - m) = (.confirmed, 1) := by
      rw [hf, pollLoop.eq_def]
      simp [hstat]
    have hp0 : pollLoop env bh 0 GET_STATUS_RETRIES = (.confirmed, 1 + m) := by
      rw [hskip, hp]
    constructor
    · simp only [WasmRpcClient.send_and_confirm_transaction, hsend, href, hp0]
    · rw [hp0]
      omega
  · intro te hstat
    have hp : pollLoop env bh m (GET_STATUS_RETRIES - m) = (.failed te, 1) := by
      rw [hf, pollLoop.eq_def]
      simp [hstat]
    have hp0 : pollLoop env bh 0 GET_STATUS_RETRIES = (.failed te, 1 + m) := by
      rw [hskip, hp]
    constructor
    · simp only [WasmRpcClient.send_and_confirm_transaction, hsend, href, hp0]
    · rw [hp0]
      omega

/-- C8: for a durable-nonce transaction, when the fetched reference
blockhash becomes invalid while the status is still absent, the inner poll
loop is abandoned (the break-to-outer-loop outcome), and since the outer
send budget is a single attempt the call returns the generic user-facing
confirmation-failure error. -/
theorem stale_blockhash_confirm_failure {Sig Hash TxErr E : Type}
    (env : ConfirmEnv Sig Hash TxErr E) (tx : Transaction Hash) (sig : Sig) (bh : Hash)
    (m : Nat)
    (hdn : tx.usesDurableNonce = true)
    (hsend : env.sendTransaction = .ok sig)
    (hlb : env.latestBlockhash = .ok bh)
    (hm : m < GET_STATUS_RETRIES)
    (hpre : ∀ j, j < m → env.status j = .ok none ∧ env.blockhashValid bh j = .ok true)
    (hsm : env.status m = .ok none)
    (hvm : env.blockhashValid bh m = .ok false) :
    WasmRpcClient.send_and_confirm_transaction env tx = .error (.forUser confirmFailMsg) ∧
    (pollLoop env bh 0 GET_STATUS_RETRIES).1 = .stale := by
  have href : refHash env tx = .ok bh := by simp [refHash, hdn, hlb]
  have hskip := pollLoop_skip env bh m 0 GET_STATUS_RETRIES (by omega)
    (fun j hj => by simpa using hpre j hj)
  rw [Nat.zero_add] at hskip
  obtain ⟨f, hf⟩ : ∃ f, GET_STATUS_RETRIES - m = f + 1 :=
    ⟨GET_STATUS_RETRIES - m - 1, by omega⟩
  have hp : pollLoop env bh m (GET_STATUS_RETRIES - m) = (.stale, 1) := by
    rw [hf, pollLoop.eq_def]
    simp [hsm, hvm]
  have hp0 : pollLoop env bh 0 GET_STATUS_RETRIES = (.stale, 1 + m) := by
    rw [hskip, hp]
  constructor
  · simp only [WasmRpcClient.send_and_confirm_transaction, hsend, href, hp0]
  · rw [hp0]

theorem runSends_ids (D : ExternalDecoders) :
    ∀ envs : List (String × Json × SendEnv), ∀ st : SenderState, st.requestId < U64MOD →
      runSends D st envs =
        (List.range envs.length).map (fun k => (st.requestId + k) % U64MOD) := by
  intro envs
  induction envs with
  | nil => intro st _; rfl
  | cons e rest ih =>
    intro st h
    obtain ⟨m, p, en⟩ := e
    show st.requestId :: runSends D (HttpSender.send D st m p en).state rest
        = (List.range ((m, p, en) :: rest).length).map (fun k => (st.requestId + k) % U64MOD)
    have hst : (HttpSender.send D st m p en).state.requestId = (st.requestId + 1) % U64MOD := rfl
    rw [ih _ (by rw [hst]; exact Nat.mod_lt _ (by norm_num [U64MOD]))]
    rw [hst, List.length_cons, List.range_succ_eq_map, List.map_cons, List.map_map]
    congr 1
    · rw [Nat.add_zero, Nat.mod_eq_of_lt h]
    · apply List.map_congr_left
      intro j _
      simp only [Function.comp_apply, Nat.mod_add_mod]
      congr 1
      omega

/-- C9 (amended): starting from a fresh `HttpSender`, the request ids drawn
by up to `2^64` successive `send` calls are strictly increasing (hence never
reused), whatever the outcome of each call. -/
theorem request_ids_strictly_increasing (D : ExternalDecoders)
    (envs : List (String × Json × SendEnv)) (h : envs.length ≤ U64MOD) :
    (runSends D HttpSender.new envs).Pairwise (· < ·) := by
  rw [runSends_ids D envs HttpSender.new (by norm_num [HttpSender.new, U64MOD])]
  have heq : ∀ k ∈ List.range envs.length,
      (HttpSender.new.requestId + k) % U64MOD = k := by
    intro k hk
    have hk2 : k < U64MOD := lt_of_lt_of_le (List.mem_range.mp hk) h
    simp [HttpSender.new, Nat.mod_eq_of_lt hk2]
  rw [List.map_congr_left heq, List.map_id']
  exact List.pairwise_lt_range _

/-- C9 counterexample: after `2^64 + 1` successive `send` calls on one fresh
instance, the wrapping u64 `fetch_add` reuses request id 0: call number
`2^64` draws the same id as call number 0, so the issued ids are not
strictly increasing over the instance lifetime. -/
theorem request_ids_wrap_after_u64_calls :
    ¬ (runSends fixDecoders HttpSender.new cexCalls).Pairwise (· < ·) := by
  intro hpw
  have hids : runSends fixDecoders HttpSender.new cexCalls
      = (List.range cexCalls.length).map (fun k => (HttpSender.new.requestId + k) % U64MOD) :=
    runSends_ids fixDecoders cexCalls HttpSender.new (by norm_num [HttpSender.new, U64MOD])
  have hlen : cexCalls.length = U64MOD + 1 := by
    simp [cexCalls]
  rw [hids, List.pairwise_iff_getElem] at hpw
  have h1 : 0 < ((List.range cexCalls.length).map
      (fun k => (HttpSender.new.requestId + k) % U64MOD)).length := by
    simp [hlen]
  have h2 : U64MOD < ((List.range cexCalls.length).map
      (fun k => (HttpSender.new.requestId + k) % U64MOD)).length := by
    simp [hlen]
  have h3 := hpw 0 U64MOD h1 h2 (by norm_num [U64MOD])
  simp [HttpSender.new, Nat.mod_self] at h3

/-- Witness for C2: a run of six 429 answers from a fresh sender costs five
default 500 ms waits (2500 ms) and ends in the 429 transport error, and one
404 answer fails at once. -/
theorem send_429_retry_budget_witness :
    ((HttpSender.send fixDecoders HttpSender.new "getHealth" Json.null cw2Env).result
        = .err (.rpcForUser 429) ∧
     (HttpSender.send fixDecoders HttpSender.new "getHealth" Json.null cw2Env).sentBodies.length
        = 6 ∧
     (HttpSender.send fixDecoders HttpSender.new "getHealth"
          Json.null cw2Env).state.stats.rateLimitedTime = 2500) ∧
    (HttpSender.send fixDecoders HttpSender.new "getHealth" Json.null c404Env).result
        = .err (.rpcForUser 404) := by
  have h := (send_429_retry_budget fixDecoders HttpSender.new "getHealth" Json.null).1
      cw2Env (fun _ => cw2Resp) (fun _ _ => rfl) (fun _ _ => rfl)
  have h2 := (send_429_retry_budget fixDecoders HttpSender.new "getHealth" Json.null).2
      c404Env c404Resp rfl rfl (by decide)
  exact ⟨⟨h.1, h.2.1, by rw [h.2.2]; rfl⟩, h2.1⟩

/-- Witness for C3: Retry-After 10 gives a 10 s wait, 500 and -7 and a
missing header give the 500 ms default, and the loop equation holds at a
concrete 429 attempt. -/
theorem send_429_backoff_duration_witness :
    backoffMs (some "10") = 1000 * 10 ∧ backoffMs (some "500") = 500 ∧
    backoffMs (some "-7") = 500 ∧ backoffMs none = 500 ∧
    sendLoop fixDecoders wBody (c3att (some "10")) 1 0 =
      ((sendLoop fixDecoders wBody (c3att (some "10")) 0 1).1,
        backoffMs (some "10") + (sendLoop fixDecoders wBody (c3att (some "10")) 0 1).2.1,
        wBody :: (sendLoop fixDecoders wBody (c3att (some "10")) 0 1).2.2) := by
  have hA := send_429_backoff_duration fixDecoders wBody (c3att (some "10"))
      ⟨429, some "10", .error "not parsed"⟩ 0 0 rfl rfl
  have hB := send_429_backoff_duration fixDecoders wBody (c3att (some "500"))
      ⟨429, some "500", .error "not parsed"⟩ 0 0 rfl rfl
  have hC := send_429_backoff_duration fixDecoders wBody (c3att (some "-7"))
      ⟨429, some "-7", .error "not parsed"⟩ 0 0 rfl rfl
  have hD := send_429_backoff_duration fixDecoders wBody (c3att none)
      ⟨429, none, .error "not parsed"⟩ 0 0 rfl rfl
  exact ⟨hA.2.1 "10" 10 rfl (by decide) (by decide),
         hB.2.2.1 "500" 500 rfl (by decide) (by decide),
         hC.2.2.2.1 "-7" rfl (by decide),
         hD.2.2.2.2 rfl,
         hA.1⟩

/-- Witness for C4 (amended): the envelope whose error object has a string
`code` yields the request error with the raw error JSON and detail, in one
attempt. -/
theorem malformed_error_object_request_error_witness :
    (HttpSender.send fixDecoders HttpSender.new "getHealth" Json.null c4amEnv).result
        = .err (.rpcRequestError (.obj [("code", Json.str "x")])
            "invalid type for field code") ∧
    (HttpSender.send fixDecoders HttpSender.new "getHealth" Json.null c4amEnv).sentBodies.length
        = 1 :=
  malformed_error_object_request_error fixDecoders HttpSender.new "getHealth" Json.null c4amEnv
    ⟨200, none, .ok c4amJson⟩ c4amJson [("code", Json.str "x")] "invalid type for field code"
    rfl rfl rfl rfl rfl

/-- Witness for C5: the node-unhealthy envelope with `num_slots_behind = 3`
yields the typed node-unhealthy error carrying 3, in one attempt. -/
theorem rpc_error_data_dispatch_witness :
    (HttpSender.send fixDecoders HttpSender.new "getHealth" Json.null c5Env).result
        = .err (.rpcResponseError (-32005) "unhealthy" (.nodeUnhealthy 3)) ∧
    (HttpSender.send fixDecoders HttpSender.new "getHealth" Json.null c5Env).sentBodies.length
        = 1 := by
  have h := rpc_error_data_dispatch fixDecoders HttpSender.new "getHealth" Json.null c5Env
      ⟨200, none, .ok c5Json⟩ c5Json
      [("code", Json.num (-32005)), ("message", Json.str "unhealthy"),
        ("data", Json.obj [("num_slots_behind", Json.num 3)])]
      (-32005) "unhealthy" rfl rfl rfl rfl rfl
  refine ⟨?_, h.2⟩
  have h2 := h.1.2.1 rfl
  rw [h2]
  rfl

/-- C6 counterexample: a success response whose body is the bare JSON number
7 contains no `error` field, yet `send` does not return Ok of a `result`
field: `json["result"].take()` panics there, because serde_json's `IndexMut`
refuses a string key on a number. -/
theorem bare_number_body_panics :
    (HttpSender.send fixDecoders HttpSender.new "getBalance" Json.null c6BadEnv).result
      = .panicked := rfl

/-- Witness for C6 (amended): the object body with `result = 42` and no
error field yields `Ok 42`. -/
theorem success_result_extraction_witness :
    (HttpSender.send fixDecoders HttpSender.new "getBalance" Json.null c6Env).result
      = .ok (.num 42) := by
  have h := success_result_extraction fixDecoders HttpSender.new "getBalance" Json.null c6Env
      ⟨200, none, .ok c6Json⟩ c6Json rfl rfl rfl rfl (Or.inl rfl)
  rw [h]
  rfl

/-- Witness for C7: a status that turns up failed (error 7) on the second
poll makes the submitter return exactly that transaction error after two
status queries. -/
theorem first_present_status_terminal_witness :
    WasmRpcClient.send_and_confirm_transaction c7Env c7Tx = .error (.transaction 7) ∧
    (pollLoop c7Env 99 0 GET_STATUS_RETRIES).2 = 2 := by
  have h := first_present_status_terminal c7Env c7Tx 11 99 1 rfl rfl (by decide)
      (fun j hj => by
        have hj0 : j = 0 := by omega
        subst hj0
        exact ⟨rfl, rfl⟩)
  exact h.2 7 rfl

/-- Witness for C8: a durable-nonce transaction whose fetched blockhash goes
invalid on the second poll while the status stays absent makes the submitter
return the generic confirmation-failure message via the stale outcome. -/
theorem stale_blockhash_confirm_failure_witness :
    WasmRpcClient.send_and_confirm_transaction c8Env c8Tx
        = .error (.forUser confirmFailMsg) ∧
    (pollLoop c8Env 99 0 GET_STATUS_RETRIES).1 = .stale :=
  stale_blockhash_confirm_failure c8Env c8Tx 11 99 1 rfl rfl rfl (by decide)
    (fun j hj => by
      have hj0 : j = 0 := by omega
      subst hj0
      exact ⟨rfl, rfl⟩)
    rfl rfl

/-- Witness for C9 (amended): three successive calls on a fresh sender issue
strictly increasing ids. -/
theorem request_ids_strictly_increasing_witness :
    (runSends fixDecoders HttpSender.new smallCalls).Pairwise (· < ·) :=
  request_ids_strictly_increasing fixDecoders smallCalls (by norm_num [smallCalls, U64MOD])

end SolanaWasmClient
